import Mathlib

/-!
Verification development for the Youmind question-asking skill
(scripts/ask_question.py, scripts/browser_utils.py, scripts/config.py).

The Python code is shallowly embedded.  Page interactions that can raise are
modelled as `Except Unit`-valued lookups supplied by an environment, so that
the try/except structure of the source becomes explicit handling of the
`.error` case.  The polling loop of `ask_youmind` becomes structural recursion
over the finite list of snapshot observations made before the 120 s deadline:
every iteration sleeps the same fixed 0.8 s interval on every control path, so
a run is determined by that list.
-/

namespace Youmind

/-- The character-list form of Python `str.strip()`: drop whitespace from both
ends (`ask_question.py` line 44 applies it to each element text). -/
def stripChars (l : List Char) : List Char :=
  ((l.dropWhile Char.isWhitespace).reverse.dropWhile Char.isWhitespace).reverse

/-- Python `text.strip()` on a string. -/
def pyStrip (s : String) : String :=
  String.mk (stripChars s.data)

/-- Model of `_collect_responses` (`ask_question.py` lines 37-52).  `pageTexts sel`
models `page.query_selector_all(sel)` followed by `inner_text()` on each
element, returning the raw element texts or `.error ()` when any of those
page calls raises; the `except Exception: continue` of the source is the
`.error` branch.  Stripped-empty texts are dropped, and a selector whose
filtered list is empty falls through to the next selector. -/
def collectResponses (pageTexts : String → Except Unit (List String)) :
    List String → List String
  | [] => []
  | sel :: rest =>
    match pageTexts sel with
    | Except.error _ => collectResponses pageTexts rest
    | Except.ok texts =>
      let selectorTexts := (texts.map pyStrip).filter (fun t => !(t == ""))
      if selectorTexts.isEmpty then collectResponses pageTexts rest
      else selectorTexts

/-- Model of `_is_thinking` (`ask_question.py` lines 55-64).  `vis sel` models
`query_selector_all(sel)` plus `is_visible()` on each node, or `.error ()`
when one of those raises (swallowed, continue with the next selector). -/
def isThinking (vis : String → Except Unit (List Bool)) : List String → Bool
  | [] => false
  | sel :: rest =>
    match vis sel with
    | Except.error _ => isThinking vis rest
    | Except.ok nodes => if nodes.any (fun b => b) then true else isThinking vis rest

/-- Model of `_find_input_selector` (`ask_question.py` lines 67-75).  `wait sel`
models `page.wait_for_selector(sel, timeout=5000, state="visible")`, which
either succeeds or raises; the source returns the selector string of the
first success and `None` when every pattern failed. -/
def findInputSelector (wait : String → Except Unit Unit) : List String → Option String
  | [] => none
  | sel :: rest =>
    match wait sel with
    | Except.ok _ => some sel
    | Except.error _ => findInputSelector wait rest

/-- The test `current_counts[text] > previous_counts.get(text, 0)` of
`ask_question.py` line 146: `Counter(xs)[t]` is `xs.count t`. -/
def countIncrease (prev cur : List String) (t : String) : Bool :=
  decide (prev.count t < cur.count t)

/-- The primary candidate rule (`ask_question.py` lines 144-148): the
`for text in reversed(responses): ... break` loop is the first match in the
reversed snapshot. -/
def findPrimaryCandidate (prev cur : List String) : Option String :=
  cur.reverse.find? (countIncrease prev cur)

/-- The in-place-update fallback (`ask_question.py` lines 150-157).
`previous_last_response` is `previous_responses[-1]` when the baseline is
non-empty and `None` otherwise, i.e. `prev.getLast?`; its Python truthiness
test also rejects the empty string. -/
def inPlaceFallback (prev cur : List String) : Option String :=
  match prev.getLast? with
  | none => none
  | some pl =>
    if pl ≠ "" ∧ cur.getLast? ≠ some pl ∧ cur ≠ prev then cur.getLast? else none

/-- Candidate computation of one poll iteration (`ask_question.py` lines
139-157): `candidate` stays `None` on an empty snapshot, otherwise the
primary rule is tried and the fallback only when the primary rule found
nothing. -/
def findCandidate (prev cur : List String) : Option String :=
  if cur = [] then none
  else
    match findPrimaryCandidate prev cur with
    | some c => some c
    | none => inPlaceFallback prev cur

/-- The constant `FOLLOW_UP_REMINDER` (`ask_question.py` lines 30-34), the static suffix
appended to a completed answer. -/
def FOLLOW_UP_REMINDER : String :=
  "\n\nEXTREMELY IMPORTANT: Is that ALL you need to know? Before replying to the user, compare this answer with the original request. If details are missing, ask another comprehensive follow-up question and include full context."

/-- The polling loop of `ask_youmind` (`ask_question.py` lines 137-174).
Each list entry is one iteration before the deadline: the snapshot
`_collect_responses` returned and the value `_is_thinking` returned.  The
`if candidate:` truthiness test skips the stability block both for `None`
and for the empty string.  Lines 169-174 branch on the thinking flag but
both branches sleep 0.8 s and continue polling, which is why both `if`
branches below recurse identically. -/
def pollLoop (prev : List String) :
    List (List String × Bool) → Option String → Nat → Option String
  | [], _, _ => none
  | (snap, thinking) :: rest, lastText, stableCount =>
    match findCandidate prev snap with
    | some c =>
      if c = "" then
        if thinking then pollLoop prev rest lastText stableCount
        else pollLoop prev rest lastText stableCount
      else if lastText = some c then
        if stableCount + 1 ≥ 3 then some (c ++ FOLLOW_UP_REMINDER)
        else
          if thinking then pollLoop prev rest lastText (stableCount + 1)
          else pollLoop prev rest lastText (stableCount + 1)
      else
        if thinking then pollLoop prev rest (some c) 1
        else pollLoop prev rest (some c) 1
    | none =>
      if thinking then pollLoop prev rest lastText stableCount
      else pollLoop prev rest lastText stableCount

/-- State update of one poll iteration when completion is not declared:
the `(last_text, stable_count)` pair after lines 159-167 run once. -/
def stepState (prev : List String) (st : Option String × Nat) (snap : List String) :
    Option String × Nat :=
  match findCandidate prev snap with
  | some c =>
    if c = "" then st
    else if st.1 = some c then (st.1, st.2 + 1)
    else (some c, 1)
  | none => st

/-- Whether one poll iteration declares completion (`stable_count` would
reach 3 on a confirming truthy candidate, lines 160-164). -/
def declaresHere (prev : List String) (st : Option String × Nat) (snap : List String) : Bool :=
  match findCandidate prev snap with
  | some c => decide (c ≠ "" ∧ st.1 = some c ∧ st.2 + 1 ≥ 3)
  | none => false

/-- Whether some poll of the run reaches the stability threshold, phrased as
a fold over the snapshot sequence with `stepState`. -/
def reachesThreshold (prev : List String) : List (List String) → Option String × Nat → Bool
  | [], _ => false
  | snap :: rest, st =>
    declaresHere prev st snap || reachesThreshold prev rest (stepState prev st snap)

/-- Python substring containment `needle in hay` on strings. -/
def pyIn (needle hay : String) : Bool :=
  (List.range (hay.data.length + 1)).any fun i => needle.data.isPrefixOf (hay.data.drop i)

/-- Printed diagnostic of `ask_question.py` line 82. -/
def notAuthMsg : String :=
  "⚠️ Not authenticated. Run: python scripts/run.py auth_manager.py setup"

/-- Printed diagnostic of `ask_question.py` line 101. -/
def signInRedirectMsg : String :=
  "  ❌ Redirected to sign-in. Authentication may be expired."

/-- Printed diagnostic of `ask_question.py` line 111. -/
def noInputMsg : String :=
  "  ❌ Could not find chat input"

/-- Printed diagnostic of `ask_question.py` line 176. -/
def timeoutMsg : String :=
  "  ❌ Timeout waiting for answer"

/-- Printed diagnostic of `ask_question.py` line 163. -/
def gotAnswerMsg : String :=
  "  ✅ Got answer"

/-- Environment of one `ask_youmind` run: the authentication check result,
the page URL after navigation, the baseline snapshot `_collect_responses`
returned at line 105, the selector `_find_input_selector` returned, and the
poll observations made before the deadline. -/
structure AskEnv where
  authenticated : Bool
  pageUrl : String
  baseline : List String
  inputSelector : Option String
  polls : List (List String × Bool)

/-- Observable outcome of one `ask_youmind` run: the printed log, the value
returned to the caller, and whether the question was submitted (the Enter
press of line 120 was reached). -/
structure AskOutcome where
  log : List String
  answer : Option String
  submitted : Bool
deriving DecidableEq

/-- Control flow of `ask_youmind` (`ask_question.py` lines 78-181) over an
abstract environment: auth gate, navigation redirect check
(`"youmind.com" not in page.url or "sign-in" in page.url`), baseline
capture, input lookup, submission, poll loop, and the `None` return on
every failure path. -/
def askYoumind (question boardUrl : String) (env : AskEnv) : AskOutcome :=
  if !env.authenticated then
    { log := [notAuthMsg], answer := none, submitted := false }
  else
    let log0 := ["💬 Asking: " ++ question, "🧠 Board: " ++ boardUrl,
      "  🌐 Opening board..."]
    if !(pyIn ("youmind.com") env.pageUrl) || pyIn ("sign-in") env.pageUrl then
      { log := log0 ++ [signInRedirectMsg], answer := none, submitted := false }
    else
      match env.inputSelector with
      | none => { log := log0 ++ [noInputMsg], answer := none, submitted := false }
      | some sel =>
        let log1 := log0 ++ ["  ✓ Found chat input: " ++ sel,
          "  📤 Submitting question...", "  ⏳ Waiting for answer..."]
        match pollLoop env.baseline env.polls none 0 with
        | some ans => { log := log1 ++ [gotAnswerMsg], answer := some ans, submitted := true }
        | none => { log := log1 ++ [timeoutMsg], answer := none, submitted := true }

/-- Bounding box of an element (`element.bounding_box()`), with exact
rational coordinates standing in for the float fields. -/
structure Box where
  x : ℚ
  y : ℚ
  width : ℚ
  height : ℚ

/-- Page behaviour seen by `StealthUtils` (`browser_utils.py`) for one fixed
selector: each primitive page call either returns a value or raises,
modelled as `Except Unit`.  `querySelector` models `page.query_selector`,
which returns the element found or `None`, or raises (for instance on
invalid selector syntax or a destroyed page context).  Elements are
identified by `Nat` handles. -/
structure PageEnv where
  querySelector : Except Unit (Option Nat)
  isVisible : Nat → Except Unit Bool
  waitForSelector : Except Unit Nat
  boundingBox : Nat → Except Unit (Option Box)
  mouseMove : ℚ → ℚ → Except Unit Unit
  clickAction : Nat → Except Unit Unit

/-- Python `try: body except Exception: handler` over an `Except` value. -/
def tryCatchE {α : Type} (x : Except Unit α) (h : Unit → Except Unit α) : Except Unit α :=
  match x with
  | Except.ok a => Except.ok a
  | Except.error e => h e

/-- Model of `StealthUtils._resolve_visible_element` (`browser_utils.py` lines
83-96).  The opening `page.query_selector` call (line 85) sits outside every
try block of the source, so an error it raises propagates to the caller,
which the leading unguarded bind reflects.  An element found is returned
when visible, and also when the visibility check itself raises; otherwise a
short `wait_for_selector` is tried with its failure caught, yielding
`None`. -/
def resolveVisibleElement (pg : PageEnv) : Except Unit (Option Nat) := do
  let element ← pg.querySelector
  let waitPart : Except Unit (Option Nat) :=
    tryCatchE (do let e ← pg.waitForSelector; pure (some e)) (fun _ => pure none)
  match element with
  | some el =>
    match pg.isVisible el with
    | Except.ok true => pure (some el)
    | Except.ok false => waitPart
    | Except.error _ => pure (some el)
  | none => waitPart

/-- Model of `StealthUtils.realistic_click` (`browser_utils.py` lines 121-143):
resolve the element (`False` when unresolved), best-effort mouse move to the
box centre with the whole block caught, then the click with its failure
caught and mapped to `False`.  The `_resolve_visible_element` call of line
124 is not guarded in the source, so an error it propagates (one raised by
`query_selector`) escapes `realistic_click` as well, which the leading
unguarded bind reflects. -/
def realisticClick (pg : PageEnv) : Except Unit Bool := do
  match (← resolveVisibleElement pg) with
  | none => pure false
  | some el =>
    let _ ← tryCatchE
      (do
        match (← pg.boundingBox el) with
        | some box => pg.mouseMove (box.x + box.width / 2) (box.y + box.height / 2)
        | none => pure ())
      (fun _ => pure ())
    tryCatchE (do let _ ← pg.clickAction el; pure true) (fun _ => pure false)


/-- The first match returned by `List.find?` splits the list so that nothing
before the match satisfies the predicate. -/
theorem find?_first_decomp {α : Type} {p : α → Bool} :
    ∀ (l : List α) (a : α), l.find? p = some a →
      ∃ l1 l2, l = l1 ++ a :: l2 ∧ p a = true ∧ ∀ x ∈ l1, p x = false := by
  intro l
  induction l with
  | nil => intro a h; simp [List.find?] at h
  | cons b t ih =>
    intro a h
    by_cases hb : p b = true
    · rw [List.find?_cons_of_pos _ hb] at h
      obtain rfl : b = a := by injection h
      exact ⟨[], t, rfl, hb, by simp⟩
    · rw [List.find?_cons_of_neg _ (by simpa using hb)] at h
      obtain ⟨l1, l2, hsplit, hpa, hnone⟩ := ih a h
      refine ⟨b :: l1, l2, by rw [hsplit]; rfl, hpa, ?_⟩
      intro x hx
      rcases List.mem_cons.mp hx with rfl | hx
      · simpa using hb
      · exact hnone x hx

/-- C1: the primary candidate rule scans the current snapshot from
most-recent to least-recent and selects the first text whose occurrence
count exceeds its baseline count, so no text rendered after the selected
one has an increased count. -/
theorem primary_rule_selects_most_recent (prev cur : List String)
    (h : ∃ t ∈ cur, countIncrease prev cur t = true) :
    ∃ c l1 l2, findPrimaryCandidate prev cur = some c ∧
      cur = l1 ++ c :: l2 ∧ countIncrease prev cur c = true ∧
      ∀ u ∈ l2, countIncrease prev cur u = false := by
  have hsome : (cur.reverse.find? (countIncrease prev cur)).isSome = true := by
    rw [List.find?_isSome]
    obtain ⟨t, ht, hp⟩ := h
    exact ⟨t, List.mem_reverse.mpr ht, hp⟩
  obtain ⟨c, hc⟩ := Option.isSome_iff_exists.mp hsome
  obtain ⟨l1, l2, hsplit, hpc, hnone⟩ := find?_first_decomp cur.reverse c hc
  refine ⟨c, l2.reverse, l1.reverse, hc, ?_, hpc, ?_⟩
  · have : cur.reverse.reverse = (l1 ++ c :: l2).reverse := by rw [hsplit]
    simpa [List.reverse_append] using this
  · intro u hu
    exact hnone u (List.mem_reverse.mp hu)

theorem primary_rule_selects_most_recent_witness :
    ∃ c l1 l2, findPrimaryCandidate ["a"] ["a", "b", "a"] = some c ∧
      ["a", "b", "a"] = l1 ++ c :: l2 ∧ countIncrease ["a"] ["a", "b", "a"] c = true ∧
      ∀ u ∈ l2, countIncrease ["a"] ["a", "b", "a"] u = false :=
  primary_rule_selects_most_recent ["a"] ["a", "b", "a"] (by decide)

/-- C3: any candidate the detector produces either has a strictly increased
occurrence count over the baseline or is the in-place-update fallback
result; a snapshot equal to the baseline yields no candidate. -/
theorem candidate_new_or_inplace_fallback :
    (∀ prev cur c, findCandidate prev cur = some c →
      prev.count c < cur.count c ∨
      (∃ pl, prev.getLast? = some pl ∧ pl ≠ "" ∧ cur.getLast? ≠ some pl ∧
        cur ≠ prev ∧ cur.getLast? = some c)) ∧
    (∀ prev, findCandidate prev prev = none) := by
  constructor
  · intro prev cur c h
    unfold findCandidate at h
    by_cases hcur : cur = []
    · rw [if_pos hcur] at h; exact absurd h (by simp)
    · rw [if_neg hcur] at h
      cases hp : findPrimaryCandidate prev cur with
      | some d =>
        rw [hp] at h
        obtain rfl : d = c := by injection h
        have := List.find?_some hp
        left
        simpa [countIncrease] using this
      | none =>
        rw [hp] at h
        unfold inPlaceFallback at h
        dsimp only at h
        cases hpl : prev.getLast? with
        | none => rw [hpl] at h; exact absurd h (by simp)
        | some pl =>
          rw [hpl] at h
          dsimp only at h
          by_cases hcond : pl ≠ "" ∧ cur.getLast? ≠ some pl ∧ cur ≠ prev
          · rw [if_pos hcond] at h
            exact Or.inr ⟨pl, rfl, hcond.1, hcond.2.1, hcond.2.2, h⟩
          · rw [if_neg hcond] at h; exact absurd h (by simp)
  · intro prev
    unfold findCandidate
    by_cases hprev : prev = []
    · rw [if_pos hprev]
    · rw [if_neg hprev]
      have hp : findPrimaryCandidate prev prev = none := by
        unfold findPrimaryCandidate
        rw [List.find?_eq_none]
        intro t _
        simp [countIncrease]
      rw [hp]
      unfold inPlaceFallback
      cases hpl : prev.getLast? with
      | none => rfl
      | some pl => simp

theorem candidate_new_or_inplace_fallback_witness :
    (["a", "b"].count ("a") < ["a"].count ("a")) ∨
    (∃ pl, ["a", "b"].getLast? = some pl ∧ pl ≠ "" ∧ ["a"].getLast? ≠ some pl ∧
      (["a"] : List String) ≠ ["a", "b"] ∧ ["a"].getLast? = some ("a")) :=
  candidate_new_or_inplace_fallback.1 ["a", "b"] ["a"] ("a") (by decide)

/-- C4: with an empty baseline the in-place-update fallback never fires
(there is no baseline last text to compare against), so on a non-empty
snapshot the candidate is exactly what the primary count rule produces. -/
theorem empty_baseline_disables_fallback (cur : List String) (h : cur ≠ []) :
    inPlaceFallback [] cur = none ∧
    findCandidate [] cur = findPrimaryCandidate [] cur := by
  constructor
  · rfl
  · unfold findCandidate
    rw [if_neg h]
    cases hp : findPrimaryCandidate [] cur <;> simp [hp, inPlaceFallback]

theorem empty_baseline_disables_fallback_witness :
    inPlaceFallback [] ["x"] = none ∧
    findCandidate [] ["x"] = findPrimaryCandidate [] ["x"] :=
  empty_baseline_disables_fallback ["x"] (by decide)


/-- C2 counterexample: the snapshot sequence ["A"], [], ["A"], [], ["A"]
(baseline empty) produces the candidate "A" only on polls 1, 3 and 5, with
the candidate-less polls 2 and 4 in between, yet the loop declares
completion: polls with no candidate skip the stability block entirely
(`if candidate:`), leaving both the counter and the last observed
candidate intact, so the identical observations accumulate to 3 although
they are not consecutive. -/
theorem stability_accumulates_across_candidate_free_polls :
    findCandidate [] [] = none ∧
    pollLoop [] [(["A"], false), ([], false), (["A"], false), ([], false), (["A"], false)]
      none 0 = some ("A" ++ FOLLOW_UP_REMINDER) :=
  ⟨rfl, rfl⟩

/-- C2 amended: a different truthy candidate resets the stable-repeat
counter to 1 and replaces the last observed candidate, and a confirming
truthy candidate increments the counter, declaring completion when it
reaches 3; but a poll that produces no candidate leaves the counter and
the last observed candidate unchanged, so identical observations separated
only by candidate-less polls still accumulate toward the threshold. -/
theorem stability_counter_transitions (prev snap : List String) (thinking : Bool)
    (rest : List (List String × Bool)) (lastText : Option String) (stableCount : Nat) :
    (∀ c, findCandidate prev snap = some c → c ≠ "" → lastText ≠ some c →
      pollLoop prev ((snap, thinking) :: rest) lastText stableCount
        = pollLoop prev rest (some c) 1) ∧
    (findCandidate prev snap = none →
      pollLoop prev ((snap, thinking) :: rest) lastText stableCount
        = pollLoop prev rest lastText stableCount) ∧
    (∀ c, findCandidate prev snap = some c → c ≠ "" → lastText = some c →
      pollLoop prev ((snap, thinking) :: rest) lastText stableCount
        = if stableCount + 1 ≥ 3 then some (c ++ FOLLOW_UP_REMINDER)
          else pollLoop prev rest lastText (stableCount + 1)) := by
  refine ⟨?_, ?_, ?_⟩
  · intro c hc hce hlt
    simp only [pollLoop, hc]
    rw [if_neg hce, if_neg hlt, ite_self]
  · intro hc
    simp only [pollLoop, hc, ite_self]
  · intro c hc hce hlt
    simp only [pollLoop, hc]
    rw [if_neg hce, if_pos hlt]
    by_cases hth : stableCount + 1 ≥ 3
    · rw [if_pos hth, if_pos hth]
    · rw [if_neg hth, if_neg hth, ite_self]

theorem stability_counter_transitions_witness :
    pollLoop [] [(["B"], true)] (some ("A")) 2 = pollLoop [] [] (some ("B")) 1 :=
  (stability_counter_transitions [] ["B"] true [] (some ("A")) 2).1 ("B") (by decide)
    (by decide) (by decide)

/-- When a poll does not declare completion, the loop continues with the
state `stepState` computes. -/
theorem pollLoop_cons_step (prev snap : List String) (thinking : Bool)
    (rest : List (List String × Bool)) (lt : Option String) (sc : Nat)
    (h : declaresHere prev (lt, sc) snap = false) :
    pollLoop prev ((snap, thinking) :: rest) lt sc
      = pollLoop prev rest (stepState prev (lt, sc) snap).1
          (stepState prev (lt, sc) snap).2 := by
  unfold declaresHere at h
  simp only [pollLoop, stepState]
  cases hc : findCandidate prev snap with
  | none => simp only [ite_self]
  | some c =>
    rw [hc] at h
    dsimp only at h
    rw [decide_eq_false_iff_not] at h
    dsimp only
    by_cases hce : c = ""
    · rw [if_pos hce, if_pos hce, ite_self]
    · rw [if_neg hce, if_neg hce]
      by_cases hlt : lt = some c
      · rw [if_pos hlt, if_pos hlt]
        have hth : ¬sc + 1 ≥ 3 := fun hth => h ⟨hce, hlt, hth⟩
        rw [if_neg hth, ite_self]
      · rw [if_neg hlt, if_neg hlt, ite_self]

/-- When a poll declares completion, the loop returns the candidate with the
follow-up reminder appended. -/
theorem pollLoop_cons_declares (prev snap : List String) (thinking : Bool)
    (rest : List (List String × Bool)) (lt : Option String) (sc : Nat)
    (h : declaresHere prev (lt, sc) snap = true) :
    ∃ c, findCandidate prev snap = some c ∧
      pollLoop prev ((snap, thinking) :: rest) lt sc
        = some (c ++ FOLLOW_UP_REMINDER) := by
  unfold declaresHere at h
  cases hc : findCandidate prev snap with
  | none => rw [hc] at h; simp at h
  | some c =>
    rw [hc] at h
    dsimp only at h
    rw [decide_eq_true_eq] at h
    obtain ⟨hce, hlt, hth⟩ := h
    refine ⟨c, rfl, ?_⟩
    simp only [pollLoop, hc]
    rw [if_neg hce, if_pos hlt, if_pos hth]

/-- C5: the poll loop returns no answer exactly when no poll of the run
reaches the stability threshold of 3 on a confirming truthy candidate; in
particular a run whose deadline elapses with no candidate reaching the
threshold ends with `None` and never surfaces a partial or unstable
candidate text. -/
theorem no_stable_candidate_times_out_with_no_text (prev : List String) :
    ∀ (polls : List (List String × Bool)) (lastText : Option String) (stableCount : Nat),
      pollLoop prev polls lastText stableCount = none ↔
      reachesThreshold prev (polls.map Prod.fst) (lastText, stableCount) = false := by
  intro polls
  induction polls with
  | nil => intro lt sc; simp [pollLoop, reachesThreshold]
  | cons hd tl ih =>
    intro lt sc
    obtain ⟨snap, thinking⟩ := hd
    simp only [List.map_cons, reachesThreshold, Bool.or_eq_false_iff]
    cases hdec : declaresHere prev (lt, sc) snap with
    | true =>
      obtain ⟨c, hc, heq⟩ := pollLoop_cons_declares prev snap thinking tl lt sc hdec
      rw [heq]
      simp [hdec]
    | false =>
      rw [pollLoop_cons_step prev snap thinking tl lt sc hdec]
      simp only [hdec, true_and]
      have h2 := ih (stepState prev (lt, sc) snap).1 (stepState prev (lt, sc) snap).2
      simpa using h2

theorem no_stable_candidate_times_out_with_no_text_witness :
    pollLoop [] [(["A"], false), (["B"], true)] none 0 = none :=
  (no_stable_candidate_times_out_with_no_text [] [(["A"], false), (["B"], true)] none 0).mpr
    (by decide)

/-- C9: the thinking indicator is advisory only.  Two runs over the same
snapshot sequence that differ only in the per-poll thinking flag produce
the same result: a visible indicator never blocks declaring completion and
an absent one never forces it (both branches of the flag check only sleep
the same interval and continue). -/
theorem thinking_flag_advisory (prev : List String) :
    ∀ (polls1 polls2 : List (List String × Bool)) (lastText : Option String)
      (stableCount : Nat), polls1.map Prod.fst = polls2.map Prod.fst →
      pollLoop prev polls1 lastText stableCount
        = pollLoop prev polls2 lastText stableCount := by
  intro polls1
  induction polls1 with
  | nil =>
    intro polls2 lt sc h
    cases polls2 with
    | nil => rfl
    | cons hd tl => simp at h
  | cons hd tl ih =>
    intro polls2 lt sc h
    cases polls2 with
    | nil => simp at h
    | cons hd2 tl2 =>
      obtain ⟨snap1, th1⟩ := hd
      obtain ⟨snap2, th2⟩ := hd2
      simp only [List.map_cons, List.cons.injEq] at h
      obtain ⟨hsnap, htl⟩ := h
      subst hsnap
      simp only [pollLoop, ite_self]
      cases hc : findCandidate prev snap1 with
      | none => exact ih tl2 lt sc htl
      | some c =>
        dsimp only
        by_cases hce : c = ""
        · rw [if_pos hce, if_pos hce]
          exact ih tl2 lt sc htl
        · rw [if_neg hce, if_neg hce]
          by_cases hlt : lt = some c
          · rw [if_pos hlt, if_pos hlt]
            by_cases hth : sc + 1 ≥ 3
            · rw [if_pos hth, if_pos hth]
            · rw [if_neg hth, if_neg hth]
              exact ih tl2 lt (sc + 1) htl
          · rw [if_neg hlt, if_neg hlt]
            exact ih tl2 (some c) 1 htl

theorem thinking_flag_advisory_witness :
    pollLoop [] [(["A"], true), (["A"], false), (["A"], true)] none 0
      = pollLoop [] [(["A"], false), (["A"], true), (["A"], false)] none 0 :=
  thinking_flag_advisory [] [(["A"], true), (["A"], false), (["A"], true)]
    [(["A"], false), (["A"], true), (["A"], false)] none 0 rfl


/-- Environment of a run that is redirected to sign-in after navigation. -/
def envAuthRedirect : AskEnv :=
  { authenticated := true, pageUrl := "https://youmind.com/sign-in",
    baseline := [], inputSelector := some ("textarea"), polls := [] }

/-- Environment of a run that navigates correctly but times out (no poll
ever yields a candidate). -/
def envTimeoutRun : AskEnv :=
  { authenticated := true, pageUrl := "https://youmind.com/boards/b1",
    baseline := [], inputSelector := some ("textarea"), polls := [] }

/-- C6 counterexample: a sign-in redirect and a generic timeout failure
both make `ask_youmind` return the same value `None`, so the caller cannot
distinguish the authentication failure from a generic failure by the
returned value; only the printed log differs. -/
theorem auth_failure_return_indistinguishable :
    pyIn ("sign-in") envAuthRedirect.pageUrl = true ∧
    (askYoumind ("q") ("u") envAuthRedirect).answer = none ∧
    (askYoumind ("q") ("u") envTimeoutRun).answer = none ∧
    (askYoumind ("q") ("u") envAuthRedirect).answer = (askYoumind ("q") ("u") envTimeoutRun).answer := by
  decide

/-- C6 amended: when the post-navigation URL leaves the target domain or is
a sign-in redirect, the exchange fails immediately with the distinct
sign-in diagnostic in its log and no question is submitted; the value
returned to the caller, however, is `None`, identical to the value
returned on input-not-found, timeout, or unexpected-fault failures. -/
theorem auth_redirect_fails_immediately (question boardUrl : String) (env : AskEnv)
    (hauth : env.authenticated = true)
    (hurl : pyIn ("youmind.com") env.pageUrl = false ∨ pyIn ("sign-in") env.pageUrl = true) :
    askYoumind question boardUrl env =
      { log := ["💬 Asking: " ++ question, "🧠 Board: " ++ boardUrl,
          "  🌐 Opening board...", signInRedirectMsg],
        answer := none, submitted := false } := by
  unfold askYoumind
  rw [hauth]
  rcases hurl with h | h <;> simp [h]

theorem auth_redirect_fails_immediately_witness :
    askYoumind ("q") ("u") envAuthRedirect =
      { log := ["💬 Asking: " ++ "q", "🧠 Board: " ++ "u",
          "  🌐 Opening board...", signInRedirectMsg],
        answer := none, submitted := false } :=
  auth_redirect_fails_immediately ("q") ("u") envAuthRedirect rfl (Or.inr (by decide))

/-- C7: selector resolution over an empty candidate list or one where every
pattern lookup raises yields not-found (no selector, empty snapshot), and a
single raising pattern is swallowed, resolution continuing with the next
pattern; both resolvers are total functions, so no exception reaches the
caller. -/
theorem selector_resolution_notfound_total :
    (∀ (wait : String → Except Unit Unit), findInputSelector wait [] = none) ∧
    (∀ (wait : String → Except Unit Unit) (sels : List String),
      (∀ s ∈ sels, wait s = Except.error ()) → findInputSelector wait sels = none) ∧
    (∀ (wait : String → Except Unit Unit) (s : String) (rest : List String),
      wait s = Except.error () →
      findInputSelector wait (s :: rest) = findInputSelector wait rest) ∧
    (∀ (pt : String → Except Unit (List String)), collectResponses pt [] = []) ∧
    (∀ (pt : String → Except Unit (List String)) (sels : List String),
      (∀ s ∈ sels, pt s = Except.error ()) → collectResponses pt sels = []) ∧
    (∀ (pt : String → Except Unit (List String)) (s : String) (rest : List String),
      pt s = Except.error () →
      collectResponses pt (s :: rest) = collectResponses pt rest) := by
  refine ⟨fun wait => rfl, ?_, ?_, fun pt => rfl, ?_, ?_⟩
  · intro wait sels h
    induction sels with
    | nil => rfl
    | cons s rest ih =>
      have hs : wait s = Except.error () := h s (List.mem_cons_self s rest)
      simp only [findInputSelector, hs]
      exact ih fun x hx => h x (List.mem_cons_of_mem s hx)
  · intro wait s rest h
    simp only [findInputSelector, h]
  · intro pt sels h
    induction sels with
    | nil => rfl
    | cons s rest ih =>
      have hs : pt s = Except.error () := h s (List.mem_cons_self s rest)
      simp only [collectResponses, hs]
      exact ih fun x hx => h x (List.mem_cons_of_mem s hx)
  · intro pt s rest h
    simp only [collectResponses, h]

/-- A lookup where every wait raises. -/
def failWait : String → Except Unit Unit := fun _ => Except.error ()

/-- A response lookup where every page call raises. -/
def failTexts : String → Except Unit (List String) := fun _ => Except.error ()

theorem selector_resolution_notfound_total_witness :
    findInputSelector failWait ["a", "b"] = none ∧
    collectResponses failTexts ["a", "b"] = [] :=
  ⟨selector_resolution_notfound_total.2.1 failWait ["a", "b"] (fun _ _ => rfl),
   selector_resolution_notfound_total.2.2.2.2.1 failTexts ["a", "b"] (fun _ _ => rfl)⟩

/-- Helper: when the unguarded `query_selector` call itself does not raise,
every other page primitive `_resolve_visible_element` uses is guarded, so
resolution returns a value. -/
theorem resolveVisibleElement_ok_of_query_ok (pg : PageEnv) (q : Option Nat)
    (h : pg.querySelector = Except.ok q) :
    ∃ o, resolveVisibleElement pg = Except.ok o := by
  unfold resolveVisibleElement tryCatchE
  rw [h]
  simp only [bind, Except.bind]
  cases q with
  | none =>
    dsimp only
    cases hw : pg.waitForSelector with
    | ok e => exact ⟨some e, by simp [bind, Except.bind, pure, Except.pure]⟩
    | error u => exact ⟨none, by simp [bind, Except.bind, pure, Except.pure]⟩
  | some el =>
    dsimp only
    cases hv : pg.isVisible el with
    | ok b =>
      cases b with
      | true => exact ⟨some el, by simp [pure, Except.pure]⟩
      | false =>
        dsimp only
        cases hw : pg.waitForSelector with
        | ok e => exact ⟨some e, by simp [bind, Except.bind, pure, Except.pure]⟩
        | error u => exact ⟨none, by simp [bind, Except.bind, pure, Except.pure]⟩
    | error u => exact ⟨some el, by simp [pure, Except.pure]⟩

/-- Page behaviour whose `query_selector` raises; the behaviour of the other
primitives is irrelevant to the run. -/
def pgQueryRaises : PageEnv :=
  { querySelector := Except.error (),
    isVisible := fun _ => Except.error (),
    waitForSelector := Except.error (),
    boundingBox := fun _ => Except.error (),
    mouseMove := fun _ _ => Except.error (),
    clickAction := fun _ => Except.error () }

/-- C8 counterexample: `page.query_selector` (`browser_utils.py` line 85) is
outside every try block of `_resolve_visible_element`, and the call to
`_resolve_visible_element` inside `realistic_click` (line 124) is unguarded
too, so an exception raised by `query_selector` propagates out of
`realistic_click` to its caller and no success/failure boolean is
returned. -/
theorem realistic_click_raises_on_query_error :
    realisticClick pgQueryRaises = Except.error () := rfl

/-- C8 amended: whenever the initial unguarded `query_selector` call does
not itself raise, `realistic_click` returns a success/failure boolean and
never propagates an exception to its caller: element unresolved, visibility
check raising, wait raising, bounding-box read raising, mouse move raising,
and the click itself raising are all caught. -/
theorem realistic_click_no_throw_when_query_ok (pg : PageEnv) (q : Option Nat)
    (h : pg.querySelector = Except.ok q) :
    ∃ b, realisticClick pg = Except.ok b := by
  unfold realisticClick
  obtain ⟨o, ho⟩ := resolveVisibleElement_ok_of_query_ok pg q h
  rw [ho]
  cases o with
  | none => exact ⟨false, by simp [bind, Except.bind, pure, Except.pure]⟩
  | some el =>
    simp only [bind, Except.bind, tryCatchE]
    cases hb : pg.boundingBox el with
    | error u =>
      cases hc : pg.clickAction el with
      | ok v =>
        exact ⟨true, by simp [hb, hc, bind, Except.bind, pure, Except.pure]⟩
      | error u2 =>
        exact ⟨false, by simp [hb, hc, bind, Except.bind, pure, Except.pure]⟩
    | ok box =>
      cases box with
      | none =>
        cases hc : pg.clickAction el with
        | ok v =>
          exact ⟨true, by simp [hb, hc, bind, Except.bind, pure, Except.pure]⟩
        | error u2 =>
          exact ⟨false, by simp [hb, hc, bind, Except.bind, pure, Except.pure]⟩
      | some b =>
        cases hm : pg.mouseMove (b.x + b.width / 2) (b.y + b.height / 2) with
        | ok v =>
          cases hc : pg.clickAction el with
          | ok v2 =>
            exact ⟨true, by simp [hb, hm, hc, bind, Except.bind, pure, Except.pure]⟩
          | error u2 =>
            exact ⟨false, by simp [hb, hm, hc, bind, Except.bind, pure, Except.pure]⟩
        | error u =>
          cases hc : pg.clickAction el with
          | ok v2 =>
            exact ⟨true, by simp [hb, hm, hc, bind, Except.bind, pure, Except.pure]⟩
          | error u2 =>
            exact ⟨false, by simp [hb, hm, hc, bind, Except.bind, pure, Except.pure]⟩

/-- Page behaviour where `query_selector` succeeds, finding element 0, but
every later primitive raises: the visibility check error returns the
element, the bounding-box and mouse errors are swallowed, and the click
error maps to `False`. -/
def pgQueryOkOthersRaise : PageEnv :=
  { querySelector := Except.ok (some 0),
    isVisible := fun _ => Except.error (),
    waitForSelector := Except.error (),
    boundingBox := fun _ => Except.error (),
    mouseMove := fun _ _ => Except.error (),
    clickAction := fun _ => Except.error () }

theorem realistic_click_no_throw_when_query_ok_witness :
    ∃ b, realisticClick pgQueryOkOthersRaise = Except.ok b :=
  realistic_click_no_throw_when_query_ok pgQueryOkOthersRaise (some 0) rfl


/-- The result of `dropWhile` is nil or has a head that fails the predicate. -/
theorem dropWhile_head_false {α : Type} {p : α → Bool} (l : List α) :
    l.dropWhile p = [] ∨ ∃ a t, l.dropWhile p = a :: t ∧ p a = false := by
  induction l with
  | nil => exact Or.inl rfl
  | cons a t ih =>
    rw [List.dropWhile_cons]
    by_cases h : p a = true
    · rw [if_pos h]; exact ih
    · rw [if_neg h]
      exact Or.inr ⟨a, t, rfl, by simpa using h⟩

/-- A non-nil `dropWhile` keeps the last element of the original list. -/
theorem getLast?_dropWhile_of_ne_nil {α : Type} {p : α → Bool} :
    ∀ l : List α, l.dropWhile p ≠ [] → (l.dropWhile p).getLast? = l.getLast? := by
  intro l
  induction l with
  | nil => intro h; exact absurd rfl h
  | cons a t ih =>
    intro h
    rw [List.dropWhile_cons] at h ⊢
    by_cases hp : p a = true
    · rw [if_pos hp] at h ⊢
      rw [ih h]
      have ht : t ≠ [] := by
        intro he
        rw [he] at h
        exact h rfl
      cases t with
      | nil => exact absurd rfl ht
      | cons b t0 => rw [List.getLast?_cons_cons]
    · rw [if_neg hp]

/-- A list whose head fails the predicate is fixed by `dropWhile`. -/
theorem dropWhile_eq_self_of_head {α : Type} {p : α → Bool} {l : List α} {a : α}
    (hh : l.head? = some a) (ha : p a = false) : l.dropWhile p = l := by
  cases l with
  | nil => simp at hh
  | cons x xs =>
    rw [List.head?_cons] at hh
    obtain rfl : x = a := by injection hh
    rw [List.dropWhile_cons, if_neg (by simp [ha])]

/-- Python `strip` is idempotent on character lists. -/
theorem stripChars_idem (l : List Char) : stripChars (stripChars l) = stripChars l := by
  rcases dropWhile_head_false (p := Char.isWhitespace)
      ((l.dropWhile Char.isWhitespace).reverse) with ht | ⟨a, t0, ht, ha⟩
  · have hS : stripChars l = ([] : List Char) := by
      unfold stripChars; rw [ht]; rfl
    rw [hS]
    rfl
  · obtain ⟨b, m0, hmb, hb⟩ :
        ∃ b m0, l.dropWhile Char.isWhitespace = b :: m0 ∧ Char.isWhitespace b = false := by
      rcases dropWhile_head_false (p := Char.isWhitespace) l with hm0 | hm0
      · rw [hm0] at ht
        simp [List.dropWhile] at ht
      · exact hm0
    have hlast : (a :: t0).getLast? = some b := by
      have h1 := getLast?_dropWhile_of_ne_nil (p := Char.isWhitespace)
        ((l.dropWhile Char.isWhitespace).reverse) (by rw [ht]; exact List.cons_ne_nil a t0)
      rw [ht, List.getLast?_reverse, hmb, List.head?_cons] at h1
      exact h1
    have hhead : ((a :: t0).reverse).head? = some b := by
      rw [List.head?_reverse]; exact hlast
    have hds : (a :: t0).reverse.dropWhile Char.isWhitespace = (a :: t0).reverse :=
      dropWhile_eq_self_of_head hhead hb
    have hS : stripChars l = (a :: t0).reverse := by
      unfold stripChars; rw [ht]
    rw [hS]
    unfold stripChars
    rw [hds, List.reverse_reverse, List.dropWhile_cons, if_neg (by simp [ha])]

/-- Python `strip` is idempotent on strings. -/
theorem pyStrip_idem (s : String) : pyStrip (pyStrip s) = pyStrip s :=
  congrArg String.mk (stripChars_idem s.data)

/-- Every member of a collected snapshot is the non-empty strip of some
element text. -/
theorem mem_collectResponses {pt : String → Except Unit (List String)} :
    ∀ {sels : List String} {s : String}, s ∈ collectResponses pt sels →
      s ≠ "" ∧ ∃ t, s = pyStrip t := by
  intro sels
  induction sels with
  | nil => intro s h; simp [collectResponses] at h
  | cons sel rest ih =>
    intro s h
    unfold collectResponses at h
    split at h
    · exact ih h
    · dsimp only at h
      split at h
      · exact ih h
      · rw [List.mem_filter] at h
        obtain ⟨hmem, hpred⟩ := h
        obtain ⟨t, _, ht⟩ := List.mem_map.mp hmem
        exact ⟨by simpa using hpred, t, ht.symm⟩

/-- C10: every string the response reader returns is non-empty and fixed by
whitespace stripping (hence non-empty after stripping again); a selector
whose matched elements all strip to empty counts as failed (resolution
moves to the next selector); and an empty snapshot arises only when every
selector either raises or yields only texts that strip to empty. -/
theorem collected_texts_nonempty_after_strip :
    (∀ (pt : String → Except Unit (List String)) (sels : List String) (s : String),
      s ∈ collectResponses pt sels → s ≠ "" ∧ pyStrip s = s) ∧
    (∀ (pt : String → Except Unit (List String)) (sel : String) (rest : List String)
      (texts : List String), pt sel = Except.ok texts →
      (∀ t ∈ texts, pyStrip t = "") →
      collectResponses pt (sel :: rest) = collectResponses pt rest) ∧
    (∀ (pt : String → Except Unit (List String)) (sels : List String),
      collectResponses pt sels = [] → ∀ sel ∈ sels,
        pt sel = Except.error () ∨
        ∃ texts, pt sel = Except.ok texts ∧ ∀ t ∈ texts, pyStrip t = "") := by
  refine ⟨?_, ?_, ?_⟩
  · intro pt sels s h
    obtain ⟨hne, t, ht⟩ := mem_collectResponses h
    refine ⟨hne, ?_⟩
    rw [ht]
    exact pyStrip_idem t
  · intro pt sel rest texts hp hall
    have hfil : (texts.map pyStrip).filter (fun t => !(t == "")) = [] := by
      rw [List.filter_eq_nil_iff]
      intro a ha
      obtain ⟨t, htmem, rfl⟩ := List.mem_map.mp ha
      simp [hall t htmem]
    simp [collectResponses, hp, hfil]
  · intro pt sels
    induction sels with
    | nil => intro _ sel hmem; simp at hmem
    | cons s0 rest ih =>
      intro h sel hmem
      cases hp : pt s0 with
      | error u =>
        have hrest : collectResponses pt rest = [] := by
          have h2 := h
          unfold collectResponses at h2
          rw [hp] at h2
          exact h2
        rcases List.mem_cons.mp hmem with rfl | hmem2
        · left; cases u; exact hp
        · exact ih hrest sel hmem2
      | ok texts =>
        have h2 := h
        unfold collectResponses at h2
        rw [hp] at h2
        dsimp only at h2
        by_cases hemp : ((texts.map pyStrip).filter (fun t => !(t == ""))).isEmpty = true
        · rw [if_pos hemp] at h2
          rcases List.mem_cons.mp hmem with rfl | hmem2
          · right
            refine ⟨texts, hp, ?_⟩
            intro t htmem
            have hfil := List.isEmpty_iff.mp hemp
            rw [List.filter_eq_nil_iff] at hfil
            have := hfil (pyStrip t) (List.mem_map.mpr ⟨t, htmem, rfl⟩)
            simpa using this
          · exact ih h2 sel hmem2
        · rw [if_neg hemp] at h2
          rw [h2] at hemp
          exact absurd rfl hemp
  
/-- Page responses of a sample run: selector "b" raises, selector "a" finds
one whitespace-only element and one element whose text strips to "x". -/
def samplePageTexts : String → Except Unit (List String) :=
  fun s => if s == "a" then Except.ok ["   ", " x "] else Except.error ()

theorem collected_texts_nonempty_after_strip_witness :
    ("x" : String) ≠ "" ∧ pyStrip ("x") = "x" :=
  collected_texts_nonempty_after_strip.1 samplePageTexts ["b", "a"] ("x") (by decide)

end Youmind
